import Mathlib

/-!
Verification of the TypeScript emission engine of the `specta` repository
(`src/lang/ts.rs`): the type-model IR, the recursive `datatype` converter,
the declaration wrapper `export_datatype`, identifier sanitisation and the
error taxonomy.  Every definition is a shallow embedding of the Rust source;
definitions whose Rust originals live outside the given sources (the IR data
declarations consumed by `ts.rs`) carry a doc comment starting with
`Modelled from the spec:`.
-/

namespace Specta

/-- Plain strings; used for constructor payloads inside inductives that also
declare a constructor named `String` (which would shadow the type there). -/
abbrev Str := String

/-- Modelled from the spec: the primitive kind tags of the IR
(`PrimitiveType` in the upstream crate).  `ts.rs` groups them with the
`primitive_def!` macro into narrow numerics, wide numerics, text and bool. -/
inductive PrimitiveType where
  | i8 | i16 | i32 | u8 | u16 | u32 | f32 | f64
  | usize | isize | i64 | u64 | i128 | u128
  | String | char | bool
deriving DecidableEq

/-- The kinds matched by `primitive_def!(i8 i16 i32 u8 u16 u32 f32 f64)`. -/
def PrimitiveType.isNarrowNumber : PrimitiveType → Bool
  | .i8 | .i16 | .i32 | .u8 | .u16 | .u32 | .f32 | .f64 => true
  | _ => false

/-- The kinds matched by `primitive_def!(usize isize i64 u64 i128 u128)`. -/
def PrimitiveType.isWideNumber : PrimitiveType → Bool
  | .usize | .isize | .i64 | .u64 | .i128 | .u128 => true
  | _ => false

/-- The kinds matched by `primitive_def!(String char)`. -/
def PrimitiveType.isText : PrimitiveType → Bool
  | .String | .char => true
  | _ => false

/-- Modelled from the spec: the literal constants of the IR (`LiteralType`
in the upstream crate).  Integer payloads are `Int`/`Nat`; the two float
kinds carry the decimal rendering that Rust's `Display` would produce,
since IEEE floats are outside the shallow embedding (no claim touches
float literals). -/
inductive LiteralType where
  | i8 (v : Int) | i16 (v : Int) | i32 (v : Int)
  | u8 (v : Nat) | u16 (v : Nat) | u32 (v : Nat)
  | f32 (rendered : Str) | f64 (rendered : Str)
  | bool (v : Bool)
  | String (v : Str)
  | none
deriving DecidableEq

/-- Embeds `LiteralType::to_ts` from `ts.rs` (lines 440-455): numbers and booleans
stringified, strings quoted, `None` rendered as `null`. -/
def LiteralType.to_ts : LiteralType → Str
  | .i8 v => toString v
  | .i16 v => toString v
  | .i32 v => toString v
  | .u8 v => toString v
  | .u16 v => toString v
  | .u32 v => toString v
  | .f32 rendered => rendered
  | .f64 rendered => rendered
  | .bool v => toString v
  | .String v => "\"" ++ v ++ "\""
  | .none => "null"

/-- Modelled from the spec: the four enum tagging strategies (`EnumRepr`). -/
inductive EnumRepr where
  | Internal (tag : String)
  | External
  | Untagged
  | Adjacent (tag : String) (content : String)
deriving DecidableEq

/-- Embeds `BigIntExportBehavior` from `ts.rs` (lines 7-26); `Fail` is the default. -/
inductive BigIntExportBehavior where
  | String
  | Number
  | BigInt
  | Fail
  | FailWithReason (reason : Str)

/-- Embeds `comments::js_doc` from `ts.rs` (lines 36-47): the default comment
formatter, rendering a `/** ... */` block, empty for no comments. -/
def js_doc (comments : List String) : String :=
  if comments.isEmpty then ""
  else "/**\n" ++ String.join (comments.map (fun c => " * " ++ c ++ "\n")) ++ " */\n"

/-- Embeds `ExportConfiguration` from `ts.rs` (lines 53-62).  The `export_by_default`
field is consumed only by the excluded orchestration layer and is omitted. -/
structure ExportConfiguration where
  bigint : BigIntExportBehavior
  comment_exporter : Option (List String → String)

/-- Embeds `ExportConfiguration::default` (lines 91-100): `Fail` bigint policy and
the `js_doc` comment formatter. -/
def defaultConfiguration : ExportConfiguration :=
  { bigint := .Fail, comment_exporter := some js_doc }

mutual
/-- Modelled from the spec: the IR sum type `DataType` (spec section 3),
with the variants exactly as consumed by `ts.rs`. -/
inductive DataType where
  | any
  | primitive (p : PrimitiveType)
  | literal (l : LiteralType)
  | nullable (inner : DataType)
  | record (key : DataType) (value : DataType)
  | list (element : DataType)
  | tuple (t : TupleType)
  | object (o : ObjectType)
  | enum (e : EnumType)
  | reference (name : String) (generics : List DataType)
  | generic (ident : String)
  | placeholder

/-- Modelled from the spec: a Tuple node (name, generics, element types). -/
inductive TupleType where
  | mk (name : String) (generics : List String) (fields : List DataType)

/-- Modelled from the spec: one field of an Object
(name, type, `optional` flag, `flatten` flag). -/
inductive ObjectField where
  | mk (name : String) (ty : DataType) (optional : Bool) (flatten : Bool)

/-- Modelled from the spec: an Object node
(name, generics, ordered fields, optional discriminant tag name). -/
inductive ObjectType where
  | mk (name : String) (generics : List String) (fields : List ObjectField)
       (tag : Option String)

/-- Modelled from the spec: one case of an Enum — Unit (no data),
Unnamed (tuple-shaped payload) or Named (struct-shaped payload), each
carrying the variant's name. -/
inductive EnumVariant where
  | unit (name : String)
  | unnamed (name : String) (payload : TupleType)
  | named (name : String) (payload : ObjectType)

/-- Modelled from the spec: an Enum node
(name, generics, representation kind, ordered variants). -/
inductive EnumType where
  | mk (name : String) (generics : List String) (variants : List EnumVariant)
       (repr : EnumRepr)
end

/-- The name of an Object field. -/
def ObjectField.name : ObjectField → String
  | .mk n _ _ _ => n

/-- The type of an Object field. -/
def ObjectField.ty : ObjectField → DataType
  | .mk _ t _ _ => t

/-- The `optional` flag of an Object field. -/
def ObjectField.optional : ObjectField → Bool
  | .mk _ _ o _ => o

/-- The `flatten` flag of an Object field. -/
def ObjectField.flatten : ObjectField → Bool
  | .mk _ _ _ f => f

/-- Modelled from the spec: `EnumVariant::name`, the variant's own name. -/
def EnumVariant.name : EnumVariant → String
  | .unit n => n
  | .unnamed n _ => n
  | .named n _ => n

/-- True exactly on `Nullable` nodes. -/
def DataType.isNullable : DataType → Bool
  | .nullable _ => true
  | _ => false

/-- True exactly on the three node kinds `export_datatype` can turn into a
declaration: Object, Enum and Tuple. -/
def DataType.isDeclarationTarget : DataType → Bool
  | .object _ | .enum _ | .tuple _ => true
  | _ => false

/-- Modelled from the spec: `DataTypeExt`, the declaration wrapper consumed
by `export_datatype` — the declaration's name, its doc comments and the IR
root; its Rust definition lives outside the given sources. -/
structure DataTypeExt where
  name : String
  comments : List String
  inner : DataType

/-- Embeds `TsExportError` from `ts.rs` (lines 102-130).  The `Io` variant is a
pass-through for caller file-system failures and is never produced by the
emission engine, so it is omitted from the embedding. -/
inductive TsExportError where
  | WithCtx (ty_name : Option String) (field_name : Option String) (err : TsExportError)
  | BigIntForbidden
  | AnonymousObject
  | AnonymousEnum
  | ForbiddenTypeName (name : String)
  | ForbiddenFieldName (type_name : String) (field_name : String)
  | CannotExport (defn : DataTypeExt)
  | InternalError (msg : String)
  | Other (msg : String)

/-- Embeds `RESERVED_WORDS` from `ts.rs` (lines 506-570), in source order. -/
def RESERVED_WORDS : List String :=
  ["break", "case", "catch", "class", "const", "continue", "debugger",
   "default", "delete", "do", "else", "enum", "export", "extends", "false",
   "finally", "for", "function", "if", "import", "in", "instanceof", "new",
   "null", "return", "super", "switch", "this", "throw", "true", "try",
   "typeof", "var", "void", "while", "with", "as", "implements", "interface",
   "let", "package", "private", "protected", "public", "static", "yield",
   "any", "boolean", "constructor", "declare", "get", "module", "require",
   "number", "set", "string", "symbol", "type", "from", "of", "namespace",
   "async", "await"]

/-- Models Rust's `char::is_alphanumeric`.  The source consults the Unicode
`Alphabetic`/numeric tables; the embedding restricts to the ASCII range on
which the two agree. -/
def char_is_alphanumeric (c : Char) : Bool := c.isAlphanum

/-- Models Rust's `char::is_numeric` (Unicode numeric), restricted to the
ASCII range on which it agrees with the decimal digits. -/
def char_is_numeric (c : Char) : Bool := c.isDigit

/-- The validity test inside `sanitise_name` (lines 489-496): every
character alphanumeric, `_` or `$`, and the first character (if any) not
numeric. -/
def validBareIdent (field_name : String) : Bool :=
  field_name.data.all (fun c => char_is_alphanumeric c || c == '_' || c == '$')
    && (match field_name.data with
        | [] => true
        | first :: _ => !(char_is_numeric first))

/-- Embeds `sanitise_name` from `ts.rs` (lines 481-503): reserved words fail with
`ForbiddenFieldName` carrying the owning type's name; invalid bare
identifiers come back wrapped in double quotes; valid ones unchanged. -/
def sanitise_name (type_name field_name : String) : Except TsExportError String :=
  if field_name ∈ RESERVED_WORDS then
    .error (.ForbiddenFieldName type_name field_name)
  else if !(validBareIdent field_name) then
    .ok ("\"" ++ field_name ++ "\"")
  else
    .ok field_name

/-- The generics rendering repeated three times in `export_datatype`
(e.g. lines 190-193): empty list renders as nothing, otherwise
an angle-bracketed comma-joined list. -/
def genericsString (generics : List String) : String :=
  match generics with
  | [] => ""
  | _ => "<" ++ String.intercalate ", " generics ++ ">"

mutual
/-- Embeds `datatype` from `ts.rs` (lines 239-438): the recursive expression
converter from an IR node to a TypeScript type expression string.  The
bodies of the `Tuple`, `Object` and `Enum` match arms are factored into
`tupleToTs`, `objectToTs` and `enumVariantList`; `datatype` on those nodes
is exactly the corresponding helper. -/
def datatype (conf : ExportConfiguration) : DataType → Except TsExportError String
  | .any => .ok "any"
  | .primitive p =>
      if p.isNarrowNumber then .ok "number"
      else if p.isWideNumber then
        match conf.bigint with
        | .String => .ok "string"
        | .Number => .ok "number"
        | .BigInt => .ok "BigInt"
        | .Fail => .error .BigIntForbidden
        | .FailWithReason reason => .error (.Other reason)
      else if p.isText then .ok "string"
      else .ok "boolean"
  | .literal l => .ok l.to_ts
  | .nullable inner =>
      match datatype conf inner with
      | .ok s => .ok (s ++ " | null")
      | .error e => .error e
  | .record key value =>
      match datatype conf key with
      | .error e => .error e
      | .ok ks =>
        match datatype conf value with
        | .error e => .error e
        | .ok vs => .ok ("\x7b [key: " ++ ks ++ "]: " ++ vs ++ " \x7d")
  | .list element =>
      match datatype conf element with
      | .ok s => .ok (s ++ "[]")
      | .error e => .error e
  | .tuple t => tupleToTs conf t
  | .object o => objectToTs conf o
  | .enum (.mk name _ variants repr) =>
      match variants with
      | [] => .ok "never"
      | _ =>
        match enumVariantList conf name repr variants with
        | .ok ss => .ok (String.intercalate " | " ss)
        | .error e => .error e
  | .reference name generics =>
      match generics with
      | [] => .ok name
      | gs =>
        match datatypeList conf gs with
        | .ok ss => .ok (name ++ "<" ++ String.intercalate ", " ss ++ ">")
        | .error e => .error e
  | .generic ident => .ok ident
  | .placeholder => .error (.InternalError "Attempted to export a placeholder!")

/-- The `DataType::Tuple` arm of `datatype` (lines 266-276): empty tuple is
`null`, a singleton is its sole element's own emission, two or more elements
render as a bracketed comma-joined list. -/
def tupleToTs (conf : ExportConfiguration) : TupleType → Except TsExportError String
  | .mk _ _ fields =>
      match fields with
      | [] => .ok "null"
      | [ty] => datatype conf ty
      | tys =>
        match datatypeList conf tys with
        | .ok ss => .ok ("[" ++ String.intercalate ", " ss ++ "]")
        | .error e => .error e

/-- The `DataType::Object` arm of `datatype` (lines 277-335): empty field
list is `null`; otherwise flattened fields become parenthesised sections,
the unflattened fields (plus the literal tag field, when a tag is set) form
one brace-wrapped section, and all sections join with `&`. -/
def objectToTs (conf : ExportConfiguration) : ObjectType → Except TsExportError String
  | .mk name _ fields tag =>
      match fields with
      | [] => .ok "null"
      | _ =>
        match flattenedFieldList conf fields with
        | .error e => .error e
        | .ok field_sections =>
          match unflattenedFieldList conf name fields with
          | .error e => .error e
          | .ok unflattened_fields =>
            let unflattened_fields :=
              match tag with
              | some t => unflattened_fields ++ [t ++ ": \"" ++ name ++ "\""]
              | none => unflattened_fields
            let field_sections :=
              match unflattened_fields with
              | [] => field_sections
              | _ => field_sections ++
                  ["\x7b " ++ String.intercalate "; " unflattened_fields ++ " \x7d"]
            .ok (String.intercalate " & " field_sections)

/-- The elementwise emission used for tuple elements and reference generic
arguments: Rust's `.map(|v| datatype(conf, v)).collect::<Result<Vec<_>,_>>()`,
i.e. left-to-right with the first error short-circuiting. -/
def datatypeList (conf : ExportConfiguration) : List DataType → Except TsExportError (List String)
  | [] => .ok []
  | t :: rest =>
      match datatype conf t with
      | .error e => .error e
      | .ok s =>
        match datatypeList conf rest with
        | .error e => .error e
        | .ok ss => .ok (s :: ss)

/-- The flattened-field pass of the Object arm (lines 282-294): the source
filters on `flatten` and then maps; here the filter is fused into one pass.
Each flattened field emits its own type wrapped in parentheses, errors
wrapped in `WithCtx` with the field name. -/
def flattenedFieldList (conf : ExportConfiguration) : List ObjectField → Except TsExportError (List String)
  | [] => .ok []
  | .mk fname fty _ ffl :: rest =>
      if ffl then
        match datatype conf fty with
        | .error err => .error (.WithCtx none (some fname) err)
        | .ok s =>
          match flattenedFieldList conf rest with
          | .error e => .error e
          | .ok ss => .ok (("(" ++ s ++ ")") :: ss)
      else flattenedFieldList conf rest

/-- The per-field body of the unflattened pass of the Object arm
(lines 299-321): sanitise the key (that error propagates unwrapped), emit
the field's type, and on `optional` append `?` to the key and — unless the
type is already `Nullable` — append `| null` to the value; errors from the
value emission are wrapped in `WithCtx` with the field name. -/
def unflattenedFieldEntry (conf : ExportConfiguration) (name : String) : ObjectField → Except TsExportError String
  | .mk fname fty fopt _ =>
      match sanitise_name name fname with
      | .error e => .error e
      | .ok field_name_safe =>
        let field_ts_str := datatype conf fty
        let key_result : String × Except TsExportError String :=
          match fopt, fty with
          | true, .nullable _ => (field_name_safe ++ "?", field_ts_str)
          | true, _ => (field_name_safe ++ "?", field_ts_str.map (fun v => v ++ " | null"))
          | false, _ => (field_name_safe, field_ts_str)
        match key_result.2 with
        | .ok v => .ok (key_result.1 ++ ": " ++ v)
        | .error err => .error (.WithCtx none (some fname) err)

/-- The unflattened-field pass of the Object arm (lines 296-323): the source
filters on `!flatten` and then maps `unflattenedFieldEntry`; the filter is
fused into one pass. -/
def unflattenedFieldList (conf : ExportConfiguration) (name : String) : List ObjectField → Except TsExportError (List String)
  | [] => .ok []
  | f :: rest =>
      if f.flatten then unflattenedFieldList conf name rest
      else
        match unflattenedFieldEntry conf name f with
        | .error e => .error e
        | .ok s =>
          match unflattenedFieldList conf name rest with
          | .error e => .error e
          | .ok ss => .ok (s :: ss)

/-- Embeds `object_field_to_ts` from `ts.rs` (lines 459-478), the field emitter
used by internally-tagged Named enum variants: sanitise the key; on
`optional` append `?` to the key and unwrap a `Nullable` type; emit the
(possibly unwrapped) type with no `| null` appended and no error wrapping. -/
def object_field_to_ts (conf : ExportConfiguration) (type_name : String) : ObjectField → Except TsExportError String
  | .mk fname fty fopt _ =>
      match sanitise_name type_name fname with
      | .error e => .error e
      | .ok field_name_safe =>
        match fopt, fty with
        | true, .nullable t =>
            match datatype conf t with
            | .ok s => .ok (field_name_safe ++ "?: " ++ s)
            | .error e => .error e
        | true, t =>
            match datatype conf t with
            | .ok s => .ok (field_name_safe ++ "?: " ++ s)
            | .error e => .error e
        | false, t =>
            match datatype conf t with
            | .ok s => .ok (field_name_safe ++ ": " ++ s)
            | .error e => .error e

/-- The `obj.fields.iter().map(|v| object_field_to_ts(conf, name, v))`
collection of the Internal+Named enum arm (lines 367-372); its errors
propagate unwrapped. -/
def objectFieldTsList (conf : ExportConfiguration) (type_name : String) : List ObjectField → Except TsExportError (List String)
  | [] => .ok []
  | f :: rest =>
      match object_field_to_ts conf type_name f with
      | .error e => .error e
      | .ok s =>
        match objectFieldTsList conf type_name rest with
        | .error e => .error e
        | .ok ss => .ok (s :: ss)

/-- The per-variant emission of the `DataType::Enum` arm (lines 343-416):
the 4 x 3 table of representation kind against variant shape.  The
variant's name is sanitised first (that error propagates unwrapped);
payload-emission errors are wrapped in `WithCtx` with the variant name,
except in the Internal+Named arm, whose field errors propagate unwrapped. -/
def enumVariantBody (conf : ExportConfiguration) (name : String) (repr : EnumRepr) (v : EnumVariant) (sn : Except TsExportError String) : Except TsExportError String :=
      match sn with
        | .error e => .error e
        | .ok sanitised_name =>
          match repr, v with
          | .Internal tag, .unit _ =>
              .ok ("\x7b " ++ tag ++ ": \"" ++ sanitised_name ++ "\" \x7d")
          | .Internal tag, .unnamed vn payload =>
              match tupleToTs conf payload with
              | .error err => .error (.WithCtx none (some vn) err)
              | .ok typ =>
                  .ok ("(\x7b " ++ tag ++ ": \"" ++ sanitised_name ++ "\" \x7d & " ++ typ ++ ")")
          | .Internal tag, .named _ (.mk _ _ ofields _) =>
              match objectFieldTsList conf name ofields with
              | .error e => .error e
              | .ok fs =>
                  .ok ("\x7b " ++
                    String.intercalate "; " ((tag ++ ": \"" ++ sanitised_name ++ "\"") :: fs)
                    ++ " \x7d")
          | .External, .unit _ => .ok ("\"" ++ sanitised_name ++ "\"")
          | .External, .unnamed vn payload =>
              match tupleToTs conf payload with
              | .error err => .error (.WithCtx none (some vn) err)
              | .ok ts_values =>
                  .ok ("\x7b " ++ sanitised_name ++ ": " ++ ts_values ++ " \x7d")
          | .External, .named vn payload =>
              match objectToTs conf payload with
              | .error err => .error (.WithCtx none (some vn) err)
              | .ok ts_values =>
                  .ok ("\x7b " ++ sanitised_name ++ ": " ++ ts_values ++ " \x7d")
          | .Untagged, .unit _ => .ok "null"
          | .Untagged, .unnamed vn payload =>
              match tupleToTs conf payload with
              | .error err => .error (.WithCtx none (some vn) err)
              | .ok ts_values => .ok ts_values
          | .Untagged, .named vn payload =>
              match objectToTs conf payload with
              | .error err => .error (.WithCtx none (some vn) err)
              | .ok ts_values => .ok ts_values
          | .Adjacent tag _, .unit _ =>
              .ok ("\x7b " ++ tag ++ ": \"" ++ sanitised_name ++ "\" \x7d")
          | .Adjacent tag content, .unnamed vn payload =>
              match tupleToTs conf payload with
              | .error err => .error (.WithCtx none (some vn) err)
              | .ok ts_values =>
                  .ok ("\x7b " ++ tag ++ ": \"" ++ sanitised_name ++ "\"; " ++
                       content ++ ": " ++ ts_values ++ " \x7d")
          | .Adjacent tag content, .named vn payload =>
              match objectToTs conf payload with
              | .error err => .error (.WithCtx none (some vn) err)
              | .ok ts_values =>
                  .ok ("\x7b " ++ tag ++ ": \"" ++ sanitised_name ++ "\"; " ++
                       content ++ ": " ++ ts_values ++ " \x7d")

/-- The `variants.iter().map(..).collect::<Result<Vec<_>, TsExportError>>()`
of the Enum arm: per-variant emission, left to right, first error
short-circuiting. -/
def enumVariantList (conf : ExportConfiguration) (name : String) (repr : EnumRepr) : List EnumVariant → Except TsExportError (List String)
  | [] => .ok []
  | v :: rest =>
      match enumVariantBody conf name repr v (sanitise_name name v.name) with
      | .error e => .error e
      | .ok s =>
        match enumVariantList conf name repr rest with
        | .error e => .error e
        | .ok ss => .ok (s :: ss)
end

/-- The per-variant closure of the Enum arm, as a standalone function:
sanitise the variant's name, then dispatch on representation and shape. -/
def enumVariantToTs (conf : ExportConfiguration) (name : String) (repr : EnumRepr) (v : EnumVariant) : Except TsExportError String :=
  enumVariantBody conf name repr v (sanitise_name name v.name)

/-- The comment rendering of `export_datatype` (lines 230-233):
`conf.comment_exporter.map(|v| v(def.comments)).unwrap_or_default()`. -/
def renderedComments (conf : ExportConfiguration) (comments : List String) : String :=
  match conf.comment_exporter with
  | some f => f comments
  | none => ""

/-- Embeds `export_datatype` from `ts.rs` (lines 163-235): computes the inline body
(errors wrapped in `WithCtx` with the declaration's name), builds the
`type Name<Generics> = Body` declaration for Object, Enum and Tuple roots
(with the anonymity and reserved-word checks of each branch), and prepends
the configured comment block and the `export ` keyword. -/
def export_datatype (conf : ExportConfiguration) (defn : DataTypeExt) : Except TsExportError String :=
  match datatype conf defn.inner with
  | .error err => .error (.WithCtx (some defn.name) none err)
  | .ok inline_ts =>
    let declaration : Except TsExportError String :=
      match defn.inner with
      | .object (.mk name generics fields _) =>
          if name = "" then .error .AnonymousObject
          else if name ∈ RESERVED_WORDS then .error (.ForbiddenTypeName name)
          else match fields with
            | [] => .ok ("type " ++ name ++ " = " ++ inline_ts)
            | _ => .ok ("type " ++ name ++ genericsString generics ++ " = " ++ inline_ts)
      | .enum (.mk name generics _ _) =>
          if name = "" then .error .AnonymousEnum
          else if name ∈ RESERVED_WORDS then .error (.ForbiddenTypeName name)
          else .ok ("type " ++ name ++ genericsString generics ++ " = " ++ inline_ts)
      | .tuple (.mk name generics _) =>
          if name ∈ RESERVED_WORDS then .error (.ForbiddenTypeName name)
          else .ok ("type " ++ name ++ genericsString generics ++ " = " ++ inline_ts)
      | _ => .error (.CannotExport defn)
    match declaration with
    | .error e => .error e
    | .ok decl => .ok (renderedComments conf defn.comments ++ "export " ++ decl)

/-- Number of positions at which `pat` occurs in the character list. -/
def countOccAux (pat : List Char) : List Char → Nat
  | [] => 0
  | c :: rest =>
      (if List.isPrefixOf pat (c :: rest) then 1 else 0) + countOccAux pat rest

/-- Number of occurrences of the substring `pat` in `s`. -/
def countOcc (pat s : String) : Nat := countOccAux pat.data s.data

/-- C2: for the Enum named `Shape` with `External` representation and
variants `Circle` (Unnamed with one narrow-numeric element) and `Empty`
(Unit), `export_datatype` with the default configuration and no comments
returns exactly `export type Shape = \x7b Circle: number \x7d | "Empty"`. -/
theorem C2_external_enum_scenario :
    export_datatype defaultConfiguration
      ⟨"Shape", [],
        .enum (.mk "Shape" []
          [.unnamed "Circle" (.mk "Circle" [] [.primitive .i32]), .unit "Empty"]
          .External)⟩
      = .ok "export type Shape = \x7b Circle: number \x7d | \"Empty\"" := rfl

/-- C3: a wide-numeric node emits `string` under the `String` policy,
`number` under `Number`, `BigInt` under `BigInt`, fails with
`BigIntForbidden` under `Fail` and with `Other` carrying the caller's
reason under `FailWithReason`, the outcome depending only on `conf.bigint`. -/
theorem C3_wide_numeric_policy (conf : ExportConfiguration) (p : PrimitiveType)
    (hw : p.isWideNumber = true) :
    (conf.bigint = .String → datatype conf (.primitive p) = .ok "string") ∧
    (conf.bigint = .Number → datatype conf (.primitive p) = .ok "number") ∧
    (conf.bigint = .BigInt → datatype conf (.primitive p) = .ok "BigInt") ∧
    (conf.bigint = .Fail → datatype conf (.primitive p) = .error .BigIntForbidden) ∧
    (∀ reason, conf.bigint = .FailWithReason reason →
        datatype conf (.primitive p) = .error (.Other reason)) := by
  have hn : p.isNarrowNumber = false := by
    cases p <;> simp_all [PrimitiveType.isNarrowNumber, PrimitiveType.isWideNumber]
  refine ⟨fun h => ?_, fun h => ?_, fun h => ?_, fun h => ?_, fun reason h => ?_⟩ <;>
    simp [datatype, hn, hw, h]

/-- Witness for C3 at the node `u64`, under each of the five policies. -/
theorem C3_wide_numeric_policy_witness :
    PrimitiveType.isWideNumber .u64 = true ∧
    datatype { bigint := .String, comment_exporter := none } (.primitive .u64) = .ok "string" ∧
    datatype { bigint := .Number, comment_exporter := none } (.primitive .u64) = .ok "number" ∧
    datatype { bigint := .BigInt, comment_exporter := none } (.primitive .u64) = .ok "BigInt" ∧
    datatype defaultConfiguration (.primitive .u64) = .error .BigIntForbidden ∧
    datatype { bigint := .FailWithReason "library reason", comment_exporter := none }
      (.primitive .u64) = .error (.Other "library reason") :=
  ⟨rfl,
   (C3_wide_numeric_policy _ .u64 rfl).1 rfl,
   (C3_wide_numeric_policy _ .u64 rfl).2.1 rfl,
   (C3_wide_numeric_policy _ .u64 rfl).2.2.1 rfl,
   (C3_wide_numeric_policy _ .u64 rfl).2.2.2.1 rfl,
   (C3_wide_numeric_policy _ .u64 rfl).2.2.2.2 "library reason" rfl⟩

/-- C4: `sanitise_name` fails with `ForbiddenFieldName` carrying the owning
type's name exactly on reserved words; otherwise it returns valid bare
identifiers unchanged and wraps anything else in double quotes. -/
theorem C4_sanitise_name (type_name field_name : String) :
    (field_name ∈ RESERVED_WORDS →
        sanitise_name type_name field_name =
          .error (.ForbiddenFieldName type_name field_name)) ∧
    (field_name ∉ RESERVED_WORDS → validBareIdent field_name = true →
        sanitise_name type_name field_name = .ok field_name) ∧
    (field_name ∉ RESERVED_WORDS → validBareIdent field_name = false →
        sanitise_name type_name field_name = .ok ("\"" ++ field_name ++ "\"")) := by
  refine ⟨fun h => by simp [sanitise_name, h],
          fun h hv => by simp [sanitise_name, h, hv],
          fun h hv => by simp [sanitise_name, h, hv]⟩

/-- Witness for C4: the reserved word `class`, the valid identifier
`my_field` and the invalid candidate `my field` on the type `Widget`. -/
theorem C4_sanitise_name_witness :
    ("class" ∈ RESERVED_WORDS ∧
      sanitise_name "Widget" "class" = .error (.ForbiddenFieldName "Widget" "class")) ∧
    ("my_field" ∉ RESERVED_WORDS ∧ validBareIdent "my_field" = true ∧
      sanitise_name "Widget" "my_field" = .ok "my_field") ∧
    ("my field" ∉ RESERVED_WORDS ∧ validBareIdent "my field" = false ∧
      sanitise_name "Widget" "my field" = .ok "\"my field\"") :=
  ⟨⟨by decide, (C4_sanitise_name "Widget" "class").1 (by decide)⟩,
   ⟨by decide, rfl, (C4_sanitise_name "Widget" "my_field").2.1 (by decide) rfl⟩,
   ⟨by decide, rfl, (C4_sanitise_name "Widget" "my field").2.2 (by decide) rfl⟩⟩

/-- C7: `datatype` maps an empty Tuple to `null`, a singleton Tuple to its
sole element's own emission, a Tuple of two or more elements to a bracketed
comma-joined list, an Object with no fields to `null`, and an Enum with no
variants to `never`. -/
theorem C7_degenerate_shapes (conf : ExportConfiguration)
    (tname oname ename : String) (tg og eg : List String)
    (ty t1 t2 : DataType) (ts : List DataType)
    (tag : Option String) (repr : EnumRepr)
    (s1 s2 : String) (ss : List String)
    (h1 : datatype conf t1 = .ok s1) (h2 : datatype conf t2 = .ok s2)
    (hs : datatypeList conf ts = .ok ss) :
    datatype conf (.tuple (.mk tname tg [])) = .ok "null" ∧
    datatype conf (.tuple (.mk tname tg [ty])) = datatype conf ty ∧
    datatype conf (.tuple (.mk tname tg (t1 :: t2 :: ts))) =
      .ok ("[" ++ String.intercalate ", " (s1 :: s2 :: ss) ++ "]") ∧
    datatype conf (.object (.mk oname og [] tag)) = .ok "null" ∧
    datatype conf (.enum (.mk ename eg [] repr)) = .ok "never" := by
  refine ⟨by simp [datatype, tupleToTs], by simp [datatype, tupleToTs], ?_,
          by simp [datatype, objectToTs], by simp [datatype]⟩
  simp [datatype, tupleToTs, datatypeList, h1, h2, hs]

/-- Witness for C7: the empty tuple, the singleton tuple over `Any`, the
pair tuple over `i32` and `bool`, the fieldless object and the variantless
enum, under the default configuration. -/
theorem C7_degenerate_shapes_witness :
    datatype defaultConfiguration (.tuple (.mk "" [] [])) = .ok "null" ∧
    datatype defaultConfiguration (.tuple (.mk "" [] [.any])) =
      datatype defaultConfiguration .any ∧
    datatype defaultConfiguration
        (.tuple (.mk "" [] [.primitive .i32, .primitive .bool])) =
      .ok "[number, boolean]" ∧
    datatype defaultConfiguration (.object (.mk "" [] [] none)) = .ok "null" ∧
    datatype defaultConfiguration (.enum (.mk "" [] [] .External)) = .ok "never" :=
  C7_degenerate_shapes defaultConfiguration "" "" "" [] [] [] .any
    (.primitive .i32) (.primitive .bool) [] none .External "number" "boolean" []
    rfl rfl rfl

/-- C9: `object_field_to_ts` on a field with `optional = true` and type
`Nullable(T)` unwraps the `Nullable` and returns `name?: emit(T)` with no
`| null` appended; on `optional = true` and a non-Nullable type it likewise
returns `name?: emit(T)` without appending `| null`. -/
theorem C9_object_field_optional (conf : ExportConfiguration)
    (type_name fname ns s : String) (t : DataType) (fl : Bool)
    (hs : sanitise_name type_name fname = .ok ns)
    (hd : datatype conf t = .ok s) :
    object_field_to_ts conf type_name (.mk fname (.nullable t) true fl) =
      .ok (ns ++ "?: " ++ s) ∧
    (t.isNullable = false →
      object_field_to_ts conf type_name (.mk fname t true fl) =
        .ok (ns ++ "?: " ++ s)) := by
  constructor
  · simp [object_field_to_ts, hs, hd]
  · intro ht
    cases t <;> simp_all [object_field_to_ts, DataType.isNullable]

/-- Witness for C9: the field `x` of `Widget`, typed `Nullable(i32)` and
plain `i32`, both emitting `x?: number`. -/
theorem C9_object_field_optional_witness :
    object_field_to_ts defaultConfiguration "Widget"
        (.mk "x" (.nullable (.primitive .i32)) true false) = .ok "x?: number" ∧
    object_field_to_ts defaultConfiguration "Widget"
        (.mk "x" (.primitive .i32) true false) = .ok "x?: number" := by
  have h := C9_object_field_optional defaultConfiguration "Widget" "x" "x" "number"
    (.primitive .i32) false rfl rfl
  exact ⟨h.1, h.2 rfl⟩

/-- C10: `export_datatype` performs no anonymity check for top-level
Tuples: an empty tuple name passes the reserved-word check and the
declaration is produced with the empty name spliced in. -/
theorem C10_tuple_empty_name (conf : ExportConfiguration) (declName : String)
    (comments gens : List String) (fields : List DataType) (s : String)
    (h : datatype conf (.tuple (.mk "" gens fields)) = .ok s) :
    export_datatype conf ⟨declName, comments, .tuple (.mk "" gens fields)⟩ =
      .ok (renderedComments conf comments ++ "export " ++
           ("type " ++ "" ++ genericsString gens ++ " = " ++ s)) := by
  have hres : ¬ ("" ∈ RESERVED_WORDS) := by decide
  simp [export_datatype, h, hres]

/-- Witness for C10: the anonymous empty tuple under the default
configuration exports as `export type  = null`. -/
theorem C10_tuple_empty_name_witness :
    export_datatype defaultConfiguration ⟨"W", [], .tuple (.mk "" [] [])⟩ =
      .ok "export type  = null" := by
  have h := C10_tuple_empty_name defaultConfiguration "W" [] [] [] "null" rfl
  simpa [renderedComments, defaultConfiguration, js_doc, genericsString] using h

lemma intercalate_singleton (sep x : String) : String.intercalate sep [x] = x := rfl

/-- Appending ` | null` cannot create an occurrence of `| null` straddling
the boundary: no nonempty suffix of `| null` is a prefix of ` | null`. -/
lemma pnull_isPrefixOf_append (l : List Char) :
    List.isPrefixOf ("| null".data) (l ++ (" | null".data)) =
    List.isPrefixOf ("| null".data) l := by
  have hp : "| null".data = ['|', ' ', 'n', 'u', 'l', 'l'] := rfl
  have hq : " | null".data = [' ', '|', ' ', 'n', 'u', 'l', 'l'] := rfl
  rw [hp, hq]
  have c1 : ('n' == '|') = false := rfl
  have c2 : ('n' == ' ') = false := rfl
  have c3 : ('u' == ' ') = false := rfl
  have c4 : ('l' == ' ') = false := rfl
  match l with
  | [] => decide
  | [a] =>
      simp only [List.cons_append, List.nil_append, List.isPrefixOf,
                 c1, c2, c3, c4, Bool.false_and, Bool.and_false]
  | [a, b] =>
      simp only [List.cons_append, List.nil_append, List.isPrefixOf,
                 c1, c2, c3, c4, Bool.false_and, Bool.and_false]
  | [a, b, c] =>
      simp only [List.cons_append, List.nil_append, List.isPrefixOf,
                 c1, c2, c3, c4, Bool.false_and, Bool.and_false]
  | [a, b, c, d] =>
      simp only [List.cons_append, List.nil_append, List.isPrefixOf,
                 c1, c2, c3, c4, Bool.false_and, Bool.and_false]
  | [a, b, c, d, e] =>
      simp only [List.cons_append, List.nil_append, List.isPrefixOf,
                 c1, c2, c3, c4, Bool.false_and, Bool.and_false]
  | a :: b :: c :: d :: e :: f :: rest =>
      simp only [List.cons_append, List.nil_append, List.isPrefixOf]

/-- Appending ` | null` to a string adds exactly one occurrence of
`| null`. -/
lemma countOccAux_pnull_append (l : List Char) :
    countOccAux ("| null".data) (l ++ (" | null".data)) =
    countOccAux ("| null".data) l + 1 := by
  induction l with
  | nil => decide
  | cons c rest ih =>
      have hb := pnull_isPrefixOf_append (c :: rest)
      simp only [List.cons_append] at hb ⊢
      simp only [countOccAux, ih, hb]
      omega

/-- String form of `countOccAux_pnull_append`. -/
lemma countOcc_append_pnull (s : String) :
    countOcc "| null" (s ++ " | null") = countOcc "| null" s + 1 := by
  have h := countOccAux_pnull_append s.data
  simpa [countOcc, String.data_append] using h

/-- An Object with exactly one field, unflattened and untagged, emits the
field's entry wrapped in braces. -/
lemma objectToTs_single_unflattened (conf : ExportConfiguration)
    (oname fname : String) (gens : List String) (fty : DataType)
    (fopt : Bool) (v : String)
    (he : unflattenedFieldEntry conf oname (.mk fname fty fopt false) = .ok v) :
    datatype conf (.object (.mk oname gens [.mk fname fty fopt false] none)) =
      .ok ("\x7b " ++ v ++ " \x7d") := by
  simp [datatype, objectToTs, flattenedFieldList, unflattenedFieldList, he,
        ObjectField.flatten, intercalate_singleton]

/-- The unflattened entry of an optional field whose type is `Nullable(T)`:
the value is `emit(T) | null` from the Nullable rule and the optional
handling appends nothing further. -/
lemma unflattenedFieldEntry_opt_nullable (conf : ExportConfiguration)
    (oname fname ns s : String) (t : DataType)
    (hs : sanitise_name oname fname = .ok ns)
    (h : datatype conf t = .ok s) :
    unflattenedFieldEntry conf oname (.mk fname (.nullable t) true false) =
      .ok (ns ++ "?: " ++ (s ++ " | null")) := by
  simp [unflattenedFieldEntry, hs, datatype, h, String.append_assoc]

/-- The unflattened entry of an optional field with a non-Nullable type:
exactly one ` | null` is appended to the emitted value. -/
lemma unflattenedFieldEntry_opt_nonnull (conf : ExportConfiguration)
    (oname fname ns su : String) (u : DataType)
    (hu : u.isNullable = false)
    (hs : sanitise_name oname fname = .ok ns)
    (h : datatype conf u = .ok su) :
    unflattenedFieldEntry conf oname (.mk fname u true false) =
      .ok (ns ++ "?: " ++ (su ++ " | null")) := by
  cases u <;>
    simp_all [unflattenedFieldEntry, DataType.isNullable, Except.map,
              String.append_assoc]

/-- C1 counterexample: the optional field `f` of type
`Nullable(Nullable(i32))` emits the value type `number | null | null`,
which contains two occurrences of `| null`, not exactly one. -/
theorem C1_counterexample :
    datatype defaultConfiguration
      (.object (.mk "T" []
        [.mk "f" (.nullable (.nullable (.primitive .i32))) true false] none))
      = .ok "\x7b f?: number | null | null \x7d" ∧
    countOcc "| null" "number | null | null" = 2 := ⟨rfl, rfl⟩

/-- C1 (amended): for an optional field of type `Nullable(T)` the emitted
value type is exactly `emit(T) ++ " | null"` — the one `| null` of the
Nullable rule, with none appended by the optional handling — and for an
optional field of a non-Nullable type exactly one `| null` is appended; in
both cases the value type contains exactly one `| null` whenever `emit(T)`
itself contains none. -/
theorem C1_nullable_merge (conf : ExportConfiguration)
    (oname fname ns : String) (gens : List String)
    (t u : DataType) (s su : String)
    (hs : sanitise_name oname fname = .ok ns) :
    (datatype conf t = .ok s →
      datatype conf
          (.object (.mk oname gens [.mk fname (.nullable t) true false] none)) =
        .ok ("\x7b " ++ (ns ++ "?: " ++ (s ++ " | null")) ++ " \x7d") ∧
      (countOcc "| null" s = 0 → countOcc "| null" (s ++ " | null") = 1)) ∧
    (u.isNullable = false → datatype conf u = .ok su →
      datatype conf
          (.object (.mk oname gens [.mk fname u true false] none)) =
        .ok ("\x7b " ++ (ns ++ "?: " ++ (su ++ " | null")) ++ " \x7d") ∧
      (countOcc "| null" su = 0 → countOcc "| null" (su ++ " | null") = 1)) := by
  constructor
  · intro h
    refine ⟨objectToTs_single_unflattened conf oname fname gens (.nullable t) true _
      (unflattenedFieldEntry_opt_nullable conf oname fname ns s t hs h), ?_⟩
    intro h0
    rw [countOcc_append_pnull, h0]
  · intro hu h
    refine ⟨objectToTs_single_unflattened conf oname fname gens u true _
      (unflattenedFieldEntry_opt_nonnull conf oname fname ns su u hu hs h), ?_⟩
    intro h0
    rw [countOcc_append_pnull, h0]

/-- Witness for C1 (amended): fields of type `Nullable(i32)` and `i32`,
optional, both emitting the value type `number | null` with exactly one
`| null`. -/
theorem C1_nullable_merge_witness :
    datatype defaultConfiguration
        (.object (.mk "T" [] [.mk "f" (.nullable (.primitive .i32)) true false] none)) =
      .ok "\x7b f?: number | null \x7d" ∧
    datatype defaultConfiguration
        (.object (.mk "T" [] [.mk "f" (.primitive .i32) true false] none)) =
      .ok "\x7b f?: number | null \x7d" ∧
    countOcc "| null" "number" = 0 ∧
    countOcc "| null" ("number" ++ " | null") = 1 := by
  have h := C1_nullable_merge defaultConfiguration "T" "f" "f" []
    (.primitive .i32) (.primitive .i32) "number" "number" rfl
  exact ⟨by have := (h.1 rfl).1; simpa using this,
         by have := (h.2 rfl rfl).1; simpa using this,
         rfl, (h.1 rfl).2 rfl⟩

/-- C5 counterexample: `123abc` is not a valid bare identifier and not
reserved, yet `export_datatype` accepts it as a declaration name and
succeeds instead of failing with `ForbiddenTypeName`. -/
theorem C5_counterexample :
    validBareIdent "123abc" = false ∧
    ¬ ("123abc" ∈ RESERVED_WORDS) ∧
    export_datatype defaultConfiguration
      ⟨"123abc", [],
        .object (.mk "123abc" [] [.mk "x" (.primitive .i32) false false] none)⟩
      = .ok "export type 123abc = \x7b x: number \x7d" :=
  ⟨rfl, by decide, rfl⟩

/-- C5 (amended): declaration names are checked only against the reserved
word table; a non-empty, non-reserved name — even one that is not a valid
bare identifier — is never rejected: `export_datatype` succeeds and splices
the name verbatim into the declaration. -/
theorem C5_no_identifier_check (conf : ExportConfiguration) (declName : String)
    (comments : List String) (name : String) (gens : List String)
    (ofields : List ObjectField) (otag : Option String)
    (variants : List EnumVariant) (repr : EnumRepr)
    (tfields : List DataType) (so se st : String)
    (hname : name ∉ RESERVED_WORDS) (hne : name ≠ "") :
    (ofields ≠ [] →
      datatype conf (.object (.mk name gens ofields otag)) = .ok so →
      export_datatype conf ⟨declName, comments, .object (.mk name gens ofields otag)⟩ =
        .ok (renderedComments conf comments ++ "export " ++
             ("type " ++ name ++ genericsString gens ++ " = " ++ so))) ∧
    (datatype conf (.enum (.mk name gens variants repr)) = .ok se →
      export_datatype conf ⟨declName, comments, .enum (.mk name gens variants repr)⟩ =
        .ok (renderedComments conf comments ++ "export " ++
             ("type " ++ name ++ genericsString gens ++ " = " ++ se))) ∧
    (datatype conf (.tuple (.mk name gens tfields)) = .ok st →
      export_datatype conf ⟨declName, comments, .tuple (.mk name gens tfields)⟩ =
        .ok (renderedComments conf comments ++ "export " ++
             ("type " ++ name ++ genericsString gens ++ " = " ++ st))) := by
  refine ⟨fun hf h => ?_, fun h => ?_, fun h => ?_⟩
  · cases ofields with
    | nil => exact absurd rfl hf
    | cons f fs => simp [export_datatype, h, hname, hne]
  · simp [export_datatype, h, hname, hne]
  · simp [export_datatype, h, hname]

/-- Witness for C5 (amended): the invalid identifier `123abc` as an Enum
declaration name is accepted and spliced verbatim. -/
theorem C5_no_identifier_check_witness :
    validBareIdent "123abc" = false ∧
    export_datatype defaultConfiguration
        ⟨"123abc", [], .enum (.mk "123abc" [] [] .External)⟩
      = .ok "export type 123abc = never" := by
  have h := C5_no_identifier_check defaultConfiguration "123abc" [] "123abc" []
    [] none [] .External [] "never" "never" "never" (by decide) (by decide)
  refine ⟨rfl, ?_⟩
  have h2 := h.2.1 rfl
  simpa [renderedComments, defaultConfiguration, js_doc, genericsString] using h2

/-- C6 counterexample: a top-level `Placeholder` fails inside the body
emission, so `export_datatype` returns `WithCtx` wrapping `InternalError`
rather than `CannotExport`. -/
theorem C6_counterexample :
    export_datatype defaultConfiguration ⟨"P", [], .placeholder⟩ =
      .error (.WithCtx (some "P") none
        (.InternalError "Attempted to export a placeholder!")) ∧
    ¬ (export_datatype defaultConfiguration ⟨"P", [], .placeholder⟩ =
        .error (.CannotExport ⟨"P", [], .placeholder⟩)) := by
  refine ⟨rfl, fun h => ?_⟩
  have h0 : export_datatype defaultConfiguration ⟨"P", [], .placeholder⟩ =
      .error (.WithCtx (some "P") none
        (.InternalError "Attempted to export a placeholder!")) := rfl
  rw [h0] at h
  exact TsExportError.noConfusion (Except.error.inj h)

/-- C6 (amended): when the body emission succeeds, a top-level Object or
Enum with an empty name fails with `AnonymousObject`/`AnonymousEnum` and
every other non-declaration-target node kind fails with `CannotExport`;
a node whose body emission fails — always the case for `Placeholder` —
instead surfaces that error wrapped in `WithCtx` with the declaration's
name. -/
theorem C6_top_level_failures (conf : ExportConfiguration) (declName : String)
    (comments gens : List String) (ofields : List ObjectField)
    (otag : Option String) (variants : List EnumVariant) (repr : EnumRepr)
    (inner : DataType) (s : String) :
    (datatype conf (.object (.mk "" gens ofields otag)) = .ok s →
      export_datatype conf ⟨declName, comments, .object (.mk "" gens ofields otag)⟩ =
        .error .AnonymousObject) ∧
    (datatype conf (.enum (.mk "" gens variants repr)) = .ok s →
      export_datatype conf ⟨declName, comments, .enum (.mk "" gens variants repr)⟩ =
        .error .AnonymousEnum) ∧
    (inner.isDeclarationTarget = false → datatype conf inner = .ok s →
      export_datatype conf ⟨declName, comments, inner⟩ =
        .error (.CannotExport ⟨declName, comments, inner⟩)) ∧
    export_datatype conf ⟨declName, comments, .placeholder⟩ =
      .error (.WithCtx (some declName) none
        (.InternalError "Attempted to export a placeholder!")) := by
  refine ⟨fun h => by simp [export_datatype, h],
          fun h => by simp [export_datatype, h],
          fun hd h => ?_,
          by simp [export_datatype, datatype]⟩
  cases inner
  case object o => simp [DataType.isDeclarationTarget] at hd
  case enum e => simp [DataType.isDeclarationTarget] at hd
  case tuple t => simp [DataType.isDeclarationTarget] at hd
  case placeholder => simp [datatype] at h
  all_goals simp [export_datatype, h]

/-- Witness for C6 (amended): an anonymous one-field Object, an anonymous
empty Enum, the bare `Any` node, and the Placeholder, all at top level. -/
theorem C6_top_level_failures_witness :
    export_datatype defaultConfiguration
        ⟨"W", [], .object (.mk "" [] [.mk "x" (.primitive .i32) false false] none)⟩ =
      .error .AnonymousObject ∧
    export_datatype defaultConfiguration ⟨"W", [], .enum (.mk "" [] [] .External)⟩ =
      .error .AnonymousEnum ∧
    export_datatype defaultConfiguration ⟨"W", [], .any⟩ =
      .error (.CannotExport ⟨"W", [], .any⟩) ∧
    export_datatype defaultConfiguration ⟨"W", [], .placeholder⟩ =
      .error (.WithCtx (some "W") none
        (.InternalError "Attempted to export a placeholder!")) := by
  refine ⟨?_, ?_, ?_, ?_⟩
  · exact (C6_top_level_failures defaultConfiguration "W" [] []
      [.mk "x" (.primitive .i32) false false] none [] .External .any
      "\x7b x: number \x7d").1 rfl
  · exact (C6_top_level_failures defaultConfiguration "W" [] [] [] none
      [] .External .any "never").2.1 rfl
  · exact (C6_top_level_failures defaultConfiguration "W" [] [] [] none
      [] .External .any "any").2.2.1 rfl rfl
  · exact (C6_top_level_failures defaultConfiguration "W" [] [] [] none
      [] .External .any "any").2.2.2

/-- The unflattened entry of a field whose type emission fails: the error
comes back wrapped in `WithCtx` carrying the field's name. -/
lemma unflattenedFieldEntry_error (conf : ExportConfiguration)
    (oname fname ns : String) (fty : DataType) (fopt : Bool)
    (e : TsExportError)
    (hs : sanitise_name oname fname = .ok ns)
    (h : datatype conf fty = .error e) :
    unflattenedFieldEntry conf oname (.mk fname fty fopt false) =
      .error (.WithCtx none (some fname) e) := by
  cases fopt <;> cases fty <;> simp_all [unflattenedFieldEntry, Except.map]

/-- An Object with exactly one field, unflattened, propagates the field
entry's error. -/
lemma objectToTs_single_unflattened_error (conf : ExportConfiguration)
    (oname fname : String) (gens : List String) (fty : DataType)
    (fopt : Bool) (tag : Option String) (err : TsExportError)
    (he : unflattenedFieldEntry conf oname (.mk fname fty fopt false) = .error err) :
    datatype conf (.object (.mk oname gens [.mk fname fty fopt false] tag)) =
      .error err := by
  simp [datatype, objectToTs, flattenedFieldList, unflattenedFieldList,
        ObjectField.flatten, he]

/-- C8 counterexample: a wide-numeric field inside an internally-tagged
Named variant under the `Fail` policy surfaces as a bare `BigIntForbidden`
with no `WithCtx` wrapping at all. -/
theorem C8_counterexample :
    datatype defaultConfiguration
      (.enum (.mk "E" []
        [.named "V" (.mk "V" [] [.mk "x" (.primitive .u64) false false] none)]
        (.Internal "t")))
      = .error .BigIntForbidden ∧
    ¬ (datatype defaultConfiguration
        (.enum (.mk "E" []
          [.named "V" (.mk "V" [] [.mk "x" (.primitive .u64) false false] none)]
          (.Internal "t")))
        = .error (.WithCtx none (some "x") .BigIntForbidden)) := by
  refine ⟨rfl, fun h => ?_⟩
  have h0 : datatype defaultConfiguration
      (.enum (.mk "E" []
        [.named "V" (.mk "V" [] [.mk "x" (.primitive .u64) false false] none)]
        (.Internal "t")))
      = .error .BigIntForbidden := rfl
  rw [h0] at h
  exact TsExportError.noConfusion (Except.error.inj h)

/-- C8 (amended): errors raised by the recursive emission of an Object
field's type, or of an External variant's tuple payload, are wrapped in
`WithCtx` carrying the field/variant name; `export_datatype` wraps any
body-emission error in `WithCtx` carrying the declaration's name; and a
wide-numeric Object field under the `Fail` policy surfaces as
`BigIntForbidden` wrapped in `WithCtx` naming the field.  (Sanitisation
errors and field errors inside Internal-tagged Named variants propagate
unwrapped, per the counterexample.) -/
theorem C8_error_wrapping (conf : ExportConfiguration)
    (oname fname ename vn ns vns : String) (gens : List String)
    (fty : DataType) (fopt : Bool) (tag : Option String)
    (payload : TupleType) (e : TsExportError) (defn : DataTypeExt)
    (p : PrimitiveType) :
    (sanitise_name oname fname = .ok ns → datatype conf fty = .error e →
      datatype conf (.object (.mk oname gens [.mk fname fty fopt false] tag)) =
        .error (.WithCtx none (some fname) e)) ∧
    (sanitise_name ename vn = .ok vns → tupleToTs conf payload = .error e →
      datatype conf (.enum (.mk ename gens [.unnamed vn payload] .External)) =
        .error (.WithCtx none (some vn) e)) ∧
    (datatype conf defn.inner = .error e →
      export_datatype conf defn = .error (.WithCtx (some defn.name) none e)) ∧
    (conf.bigint = .Fail → p.isWideNumber = true →
      sanitise_name oname fname = .ok ns →
      datatype conf (.object (.mk oname gens [.mk fname (.primitive p) fopt false] tag)) =
        .error (.WithCtx none (some fname) .BigIntForbidden)) := by
  refine ⟨fun hs h => ?_, fun hs2 hp => ?_, fun h => ?_, fun hb hw hs => ?_⟩
  · exact objectToTs_single_unflattened_error conf oname fname gens fty fopt tag _
      (unflattenedFieldEntry_error conf oname fname ns fty fopt e hs h)
  · simp [datatype, enumVariantList, enumVariantBody, EnumVariant.name, hs2, hp]
  · simp [export_datatype, h]
  · have hn : p.isNarrowNumber = false := by
      cases p <;> simp_all [PrimitiveType.isNarrowNumber, PrimitiveType.isWideNumber]
    have hd : datatype conf (.primitive p) = .error .BigIntForbidden := by
      simp [datatype, hn, hw, hb]
    exact objectToTs_single_unflattened_error conf oname fname gens
      (.primitive p) fopt tag _
      (unflattenedFieldEntry_error conf oname fname ns (.primitive p) fopt
        .BigIntForbidden hs hd)

/-- Witness for C8 (amended): a `u64` Object field under the default
configuration, an External Unnamed variant with a `u64` payload, and the
Placeholder body error wrapped by `export_datatype`. -/
theorem C8_error_wrapping_witness :
    datatype defaultConfiguration
        (.object (.mk "T" [] [.mk "x" (.primitive .u64) false false] none)) =
      .error (.WithCtx none (some "x") .BigIntForbidden) ∧
    datatype defaultConfiguration
        (.enum (.mk "E" [] [.unnamed "A" (.mk "A" [] [.primitive .u64])] .External)) =
      .error (.WithCtx none (some "A") .BigIntForbidden) ∧
    export_datatype defaultConfiguration ⟨"D", [], .placeholder⟩ =
      .error (.WithCtx (some "D") none
        (.InternalError "Attempted to export a placeholder!")) := by
  refine ⟨?_, ?_, ?_⟩
  · exact (C8_error_wrapping defaultConfiguration "T" "x" "E" "A" "x" "A" []
      (.primitive .u64) false none (.mk "A" [] [.primitive .u64])
      .BigIntForbidden ⟨"D", [], .placeholder⟩ .u64).1 rfl rfl
  · exact (C8_error_wrapping defaultConfiguration "T" "x" "E" "A" "x" "A" []
      (.primitive .u64) false none (.mk "A" [] [.primitive .u64])
      .BigIntForbidden ⟨"D", [], .placeholder⟩ .u64).2.1 rfl rfl
  · exact (C8_error_wrapping defaultConfiguration "T" "x" "E" "A" "x" "A" []
      (.primitive .u64) false none (.mk "A" [] [.primitive .u64])
      (.InternalError "Attempted to export a placeholder!")
      ⟨"D", [], .placeholder⟩ .u64).2.2.1 rfl

end Specta
